import Mathlib

/-!
Shallow embedding of the RAG backend `backend/app/main.py` (a FastAPI
application wiring a LangChain retrieval-augmented chat pipeline), together
with theorems settling the frozen claims about it.

The language model, the embedding model and the vector store are external
collaborators: they are modelled as opaque function parameters (or, where the
spec pins their behaviour, as definitions marked `Modelled from the spec:`).
All definitions are executable.
-/

namespace RagApp

/-- Pydantic model `ChatHistoryItem` (main.py lines 25-27). -/
structure ChatHistoryItem where
  sender : String
  text : String
  deriving Repr, DecidableEq

/-- Pydantic model `QueryRequest` (main.py lines 29-32), with its defaults. -/
structure QueryRequest where
  question : String
  model_name : String := "gpt-4o"
  chat_history : List ChatHistoryItem := []
  deriving Repr, DecidableEq

/-- A LangChain chat message: `("system", s)`, `HumanMessage`, `AIMessage`. -/
inductive LCMessage where
  | system : String → LCMessage
  | human : String → LCMessage
  | ai : String → LCMessage
  deriving Repr, DecidableEq

/-- A LangChain `Document`: `page_content` plus a string-keyed metadata map
(modelled as an association list; `metadata.get(k, d)` is `lookup` + `getD`). -/
structure Document where
  page_content : String
  metadata : List (String × String)
  deriving Repr, DecidableEq

/-- The type of the instantiated chat model: a chat-prompt value (a list of
messages) to the generated text.  `ChatOpenAI(model=..., temperature=0)` is an
opaque parameter of type `String → Nat → LLM` applied at model name and
temperature 0. -/
abbrev LLM := List LCMessage → String

/-- The type of the retriever: query text to retrieved documents. -/
abbrev Retriever := String → List Document

/-- `contextualize_q_system_prompt` (main.py lines 121-124; the Python string
uses backslash line continuations, so the indentation is part of it). -/
def contextualize_q_system_prompt : String :=
  "Given a chat history and the latest user question         which might reference context in the chat history, formulate a standalone question         which can be understood without the chat history. Do NOT answer the question,         just reformulate it if needed and otherwise return it as is."

/-- `contextualize_q_prompt` (main.py lines 125-129): system prompt, the
`chat_history` placeholder, then the human `input`. -/
def contextualize_q_prompt (chat_history : List LCMessage) (input : String) :
    List LCMessage :=
  [LCMessage.system contextualize_q_system_prompt] ++ chat_history
    ++ [LCMessage.human input]

/-- `qa_system_prompt` (main.py lines 134-139) with the retrieved context
formatted into its final slot. -/
def qa_system_prompt (context : String) : String :=
  "You are an assistant for question-answering tasks.         Use the following pieces of retrieved context to answer the question.         If you don't know the answer, just say that you don't know.         Your answer should be detailed and well-formatted. Use Markdown for lists, bullet points, and bolding to improve readability.\n\n        " ++ context

/-- `qa_prompt` (main.py lines 140-144): system prompt holding the context,
the `chat_history` placeholder, then the human `input`. -/
def qa_prompt (context : String) (chat_history : List LCMessage) (input : String) :
    List LCMessage :=
  [LCMessage.system (qa_system_prompt context)] ++ chat_history
    ++ [LCMessage.human input]

/-- Modelled from the spec: the history-aware retriever built at main.py line
130 by the library combinator `create_history_aware_retriever` (library code,
not under src/).  Per the spec's Query Reformulator contract: if the history is
empty it passes the new question through unchanged without a language-model
call; otherwise it asks the model for a standalone question and retrieves with
the model's output. -/
def history_aware_retriever (llm : LLM) (retriever : Retriever)
    (chat_history : List LCMessage) (input : String) : List Document :=
  if chat_history = [] then retriever input
  else retriever (llm (contextualize_q_prompt chat_history input))

/-- The standalone question the pipeline retrieves with: the reformulated
question when history is present, the new question itself otherwise. -/
def standalone_question (llm : LLM) (chat_history : List LCMessage)
    (input : String) : String :=
  if chat_history = [] then input
  else llm (contextualize_q_prompt chat_history input)

/-- Modelled from the spec: the chain built at main.py line 145 by the library
combinator `create_stuff_documents_chain` (library code, not under src/): it
stuffs the retrieved documents' page contents into the prompt's context slot
(joined by blank lines, the library's default document separator) and delegates
generation to the model. -/
def question_answer_chain (llm : LLM) (context : List Document)
    (chat_history : List LCMessage) (input : String) : String :=
  llm (qa_prompt
    (String.intercalate "\n\n" (context.map Document.page_content))
    chat_history input)

/-- Modelled from the spec: the chain built at main.py line 148 by the library
combinator `create_retrieval_chain` (library code, not under src/): retrieve
the context via the history-aware retriever, then answer via the
question-answer chain on the same input and history, returning both the answer
and the retrieved context. -/
def rag_chain (llm : LLM) (retriever : Retriever)
    (chat_history : List LCMessage) (input : String) : String × List Document :=
  let context := history_aware_retriever llm retriever chat_history input
  (question_answer_chain llm context chat_history input, context)

/-- The history-formatting loop of main.py lines 151-156: sender `"user"`
appends a `HumanMessage`, sender `"ai"` appends an `AIMessage`, anything else
appends nothing. -/
def formatted_chat_history : List ChatHistoryItem → List LCMessage
  | [] => []
  | msg :: rest =>
    (if msg.sender = "user" then [LCMessage.human msg.text]
     else if msg.sender = "ai" then [LCMessage.ai msg.text]
     else []) ++ formatted_chat_history rest

/-- One element of the `sources` list of the chat response
(main.py lines 165-170). -/
structure SourceEntry where
  source : String
  page_content : String
  deriving Repr, DecidableEq

/-- The chat endpoint's response value (main.py line 172). -/
structure AnswerResponse where
  answer : String
  sources : List SourceEntry
  deriving Repr, DecidableEq

/-- The `/chat/` endpoint `chat_with_document` (main.py lines 107-172) on the
happy path: instantiate the model at the requested name and temperature 0,
format the history, invoke the retrieval chain on the new question, and mirror
the retrieved context into `sources` (taking each document's `source` metadata
with default `"Unknown"` and its full `page_content`).  Collaborator failures
(the only exceptions on this path) are outside the pure model. -/
def chat_with_document (chatOpenAI : String → Nat → LLM)
    (retriever : Retriever) (request : QueryRequest) : AnswerResponse :=
  let llm := chatOpenAI request.model_name 0
  let fch := formatted_chat_history request.chat_history
  let result := rag_chain llm retriever fch request.question
  { answer := result.1
    sources := result.2.map (fun doc =>
      { source := (doc.metadata.lookup "source").getD "Unknown"
        page_content := doc.page_content }) }

/-- The history-aware retriever always retrieves with the standalone question. -/
theorem history_aware_retriever_eq (llm : LLM) (retriever : Retriever)
    (chat_history : List LCMessage) (input : String) :
    history_aware_retriever llm retriever chat_history input
      = retriever (standalone_question llm chat_history input) := by
  by_cases h : chat_history = [] <;>
    simp [history_aware_retriever, standalone_question, h]

/-- An HTTP error response: FastAPI's `HTTPException` payload. -/
structure HTTPError where
  status_code : Nat
  detail : String
  deriving Repr, DecidableEq

/-- `str()` of a raised `HTTPException` (starlette renders it as
`"{status_code}: {detail}"`), used when the blanket `except` interpolates the
caught exception into a new detail string. -/
def httpErrorStr (e : HTTPError) : String :=
  toString e.status_code ++ ": " ++ e.detail

/-- A Python exception raised inside the upload endpoint's `try` body: either
an `HTTPException` or some other exception carrying its message. -/
inductive PyError where
  | http : HTTPError → PyError
  | other : String → PyError
  deriving Repr, DecidableEq

/-- `str()` of a caught exception. -/
def pyErrorStr : PyError → String
  | PyError.http e => httpErrorStr e
  | PyError.other s => s

/-- Index of the last occurrence of a character in a list, if any. -/
def last_index_of (c : Char) : List Char → Option Nat
  | [] => none
  | a :: rest =>
    match last_index_of c rest with
    | some i => some (i + 1)
    | none => if a = c then some 0 else none

/-- `os.path.splitext(p)[1]`: the extension starting at the last dot of the
basename, empty when the basename has no dot or only leading dots
(so `".bashrc"` has no extension). -/
def splitext_ext (p : String) : String :=
  let cs := p.toList
  let base :=
    match last_index_of '/' cs with
    | none => cs
    | some i => cs.drop (i + 1)
  match last_index_of '.' base with
  | none => ""
  | some i =>
    if (base.take i).any (fun c => !(c == '.')) then String.mk (base.drop i)
    else ""

/-- Python's `str.lower()`, character by character. -/
def str_lower (s : String) : String := String.mk (s.toList.map Char.toLower)

/-- The external collaborators of the upload endpoint, as opaque parameters:
the selected loader's `load()` (which may fail with an extraction error), the
`RecursiveCharacterTextSplitter.split_documents`, and flags for whether the
`shutil.copyfileobj` staging copy and the `vector_store.add_documents`
embedding-and-insert succeed (each raising on failure). -/
structure UploadWorld where
  load : String → Except String (List Document)
  split_documents : List Document → List Document
  copy_ok : Bool
  add_ok : Bool

/-- The process-wide state the upload endpoint touches: whether the staged
copy of the uploaded file exists at its `file_path`, and the chunks stored in
the vector store. -/
structure AppState where
  staged : Bool
  corpus : List Document
  deriving Repr, DecidableEq

/-- The upload endpoint's success payload (main.py lines 213-217). -/
structure UploadResponse where
  filename : String
  detail : String
  chunks_count : Nat
  deriving Repr, DecidableEq

/-- The `try` body of `upload_document` (main.py lines 186-217): stage the
file (the `open(..., "wb")` creates it even if the copy then fails), dispatch
a loader on the lowercased extension — raising a 400 `HTTPException` for any
extension other than `.pdf`, `.docx`, `.txt` — load, split, reject an empty
chunk list with a 500 `HTTPException`, then embed-and-store the chunks and
return the success payload. -/
def upload_try (w : UploadWorld) (filename : String) (st : AppState) :
    Except PyError UploadResponse × AppState :=
  let st1 : AppState := { st with staged := true }
  if w.copy_ok = false then
    (Except.error (PyError.other "copy failed"), st1)
  else
    let file_extension := str_lower (splitext_ext filename)
    if file_extension = ".pdf" ∨ file_extension = ".docx"
        ∨ file_extension = ".txt" then
      match w.load filename with
      | Except.error msg => (Except.error (PyError.other msg), st1)
      | Except.ok documents =>
        let chunks := w.split_documents documents
        if chunks = [] then
          (Except.error (PyError.http
            { status_code := 500
              detail := "Could not extract text from the PDF." }), st1)
        else if w.add_ok then
          (Except.ok
            { filename := filename
              detail := "Successfully processed and stored in vector DB."
              chunks_count := chunks.length },
           { st1 with corpus := st1.corpus ++ chunks })
        else
          (Except.error (PyError.other "embedding failed"), st1)
    else
      (Except.error (PyError.http
        { status_code := 400
          detail := "Unsupported file type: " ++ file_extension }), st1)

/-- `os.remove(file_path)` guarded by `os.path.exists` (a no-op when the file
is already gone). -/
def remove_if_exists (st : AppState) : AppState := { st with staged := false }

/-- The `/upload/` endpoint `upload_document` (main.py lines 179-226): run the
`try` body; on success the `finally` block deletes the staged file; on ANY
exception — `HTTPException` included, since `except Exception` catches it —
the handler deletes the staged file and re-raises a fresh 500 `HTTPException`
whose detail interpolates the caught exception, and the `finally` block then
deletes again (a no-op). -/
def upload_document (w : UploadWorld) (filename : String) (st : AppState) :
    Except HTTPError UploadResponse × AppState :=
  match upload_try w filename st with
  | (Except.ok r, st2) => (Except.ok r, remove_if_exists st2)
  | (Except.error e, st2) =>
    (Except.error
      { status_code := 500
        detail := "An error occurred: " ++ pyErrorStr e },
     remove_if_exists (remove_if_exists st2))

/-- An `EmbeddingRecord` stored by the vector index (spec §3): id, embedding
vector (reals modelled as rationals), chunk text, metadata. -/
structure EmbeddingRecord where
  id : String
  vector : List ℚ
  text : String
  metadata : List (String × String)
  deriving Repr, DecidableEq

/-- Stable descending insertion by score: the new, earlier-inserted record is
placed before every later record of equal or lower score (ties broken by
insertion order, earlier wins). -/
def insert_by_score (score : EmbeddingRecord → ℚ) (a : EmbeddingRecord) :
    List EmbeddingRecord → List EmbeddingRecord
  | [] => [a]
  | b :: l =>
    if score b ≤ score a then a :: b :: l else b :: insert_by_score score a l

/-- Sort records by score, descending, stably. -/
def sort_by_score (score : EmbeddingRecord → ℚ) :
    List EmbeddingRecord → List EmbeddingRecord
  | [] => []
  | a :: l => insert_by_score score a (sort_by_score score l)

/-- Modelled from the spec: the Chroma vector store's nearest-neighbour
`query(queryText, k)` (library code, not under src/): embeds the query and
returns the k stored records of highest similarity, ties broken by insertion
order; the similarity of the embedded query to a record is an opaque
parameter.  "Returns empty sequence (not an error) when the corpus is empty." -/
def vector_index_query (sim : String → EmbeddingRecord → ℚ)
    (store : List EmbeddingRecord) (queryText : String) (k : Nat) :
    List EmbeddingRecord :=
  (sort_by_score (sim queryText) store).take k

/-- A stored record as a LangChain `Document`. -/
def record_to_document (r : EmbeddingRecord) : Document :=
  { page_content := r.text, metadata := r.metadata }

/-- `vector_store.as_retriever(search_kwargs=...)` with k = 5
(main.py line 62): every call queries the index with fan-out 5. -/
def as_retriever (sim : String → EmbeddingRecord → ℚ)
    (store : List EmbeddingRecord) : Retriever :=
  fun q => (vector_index_query sim store q 5).map record_to_document

/-- One 2D point of the visualization payload (main.py lines 256-262). -/
structure VisPoint where
  x : ℚ
  y : ℚ
  text : String
  source : String
  deriving Repr, DecidableEq

/-- The `/documents/visualize/` endpoint (main.py lines 229-269): fetch all
records; 404 when there are no ids; 400 when fewer than 3; otherwise run the
dimensionality reduction (t-SNE, an opaque collaborator; reals modelled as
rationals) and pair each record's text and source metadata (default
`"Unknown source"`) with its 2D coordinates.  `HTTPException`s are re-raised
unchanged (lines 266-267). -/
def visualize_documents (tsne_fit : List (List ℚ) → List (ℚ × ℚ))
    (store : List EmbeddingRecord) : Except HTTPError (List VisPoint) :=
  if store.map EmbeddingRecord.id = [] then
    Except.error
      { status_code := 404, detail := "No documents found to visualize." }
  else if store.length < 3 then
    Except.error
      { status_code := 400
        detail := "Not enough documents (need at least 3) to create a meaningful visualization." }
  else
    let results := tsne_fit (store.map EmbeddingRecord.vector)
    Except.ok ((store.zip results).map (fun p =>
      { x := p.2.1
        y := p.2.2
        text := p.1.text
        source := (p.1.metadata.lookup "source").getD "Unknown source" }))

/-- Insert a string into an ascending sorted list. -/
def insert_sorted (a : String) : List String → List String
  | [] => [a]
  | b :: l => if a ≤ b then a :: b :: l else b :: insert_sorted a l

/-- `sorted(...)` on strings: ascending insertion sort. -/
def sort_strings : List String → List String
  | [] => []
  | a :: l => insert_sorted a (sort_strings l)

/-- The `/documents/list/` endpoint (main.py lines 272-288): fetch all
records; return the empty list when there are no ids; otherwise build the set
of each record's `metadata['source']` (a `KeyError` on a record lacking the
key is caught by the blanket `except` and becomes a 500) and return it as a
sorted deduplicated list. -/
def list_documents (store : List EmbeddingRecord) :
    Except HTTPError (List String) :=
  if store.map EmbeddingRecord.id = [] then Except.ok []
  else
    match store.mapM (fun r => r.metadata.lookup "source") with
    | none =>
      Except.error
        { status_code := 500
          detail := "An error occurred while listing documents: KeyError" }
    | some sources => Except.ok (sort_strings sources.dedup)

/-- The chat endpoint unfolded: the answer comes from the question-answer
chain run on the retrieved context, the formatted history and the ORIGINAL
question, while the context is retrieved with the STANDALONE question. -/
theorem chat_with_document_eq (chatOpenAI : String → Nat → LLM)
    (retriever : Retriever) (request : QueryRequest) :
    chat_with_document chatOpenAI retriever request
      = { answer := question_answer_chain (chatOpenAI request.model_name 0)
            (retriever (standalone_question (chatOpenAI request.model_name 0)
              (formatted_chat_history request.chat_history) request.question))
            (formatted_chat_history request.chat_history) request.question
          sources := (retriever (standalone_question
              (chatOpenAI request.model_name 0)
              (formatted_chat_history request.chat_history)
              request.question)).map (fun doc =>
            { source := (doc.metadata.lookup "source").getD "Unknown"
              page_content := doc.page_content }) } := by
  simp [chat_with_document, rag_chain, history_aware_retriever_eq]

/-- C1: for every chat request, the retrieved context is obtained by querying
the retriever with the standalone question reformulated from the history and
the new question, while the answer is synthesized from a prompt whose human
message is the original, un-reformulated question (with the history); and the
two values are not collapsed into one: the standalone question can differ from
the original question. -/
theorem chat_retrieval_synthesis_asymmetry (chatOpenAI : String → Nat → LLM)
    (retriever : Retriever) (request : QueryRequest) :
    ((chat_with_document chatOpenAI retriever request).answer
      = (chatOpenAI request.model_name 0) (qa_prompt
          (String.intercalate "\n\n"
            ((retriever (standalone_question (chatOpenAI request.model_name 0)
              (formatted_chat_history request.chat_history)
              request.question)).map Document.page_content))
          (formatted_chat_history request.chat_history) request.question)
      ∧ (chat_with_document chatOpenAI retriever request).sources
        = (retriever (standalone_question (chatOpenAI request.model_name 0)
            (formatted_chat_history request.chat_history)
            request.question)).map (fun doc =>
          { source := (doc.metadata.lookup "source").getD "Unknown"
            page_content := doc.page_content }))
      ∧ ∃ llm h q, standalone_question llm h q ≠ q := by
  refine ⟨⟨?_, ?_⟩, fun _ => "standalone", [LCMessage.human "hi"], "orig", ?_⟩
  · simp [chat_with_document, rag_chain, history_aware_retriever_eq,
      question_answer_chain]
  · simp [chat_with_document, rag_chain, history_aware_retriever_eq]
  · simp [standalone_question]

/-- C2: for every chat request, the `sources` of the response are exactly the
retrieved context documents, mapped in order to their source metadata and
full page content; in particular the page contents of the sources are, in
order, exactly the page contents of the retrieved chunks. -/
theorem chat_sources_mirror_context (chatOpenAI : String → Nat → LLM)
    (retriever : Retriever) (request : QueryRequest) :
    (chat_with_document chatOpenAI retriever request).sources
      = (history_aware_retriever (chatOpenAI request.model_name 0) retriever
          (formatted_chat_history request.chat_history)
          request.question).map (fun doc =>
        { source := (doc.metadata.lookup "source").getD "Unknown"
          page_content := doc.page_content })
    ∧ (chat_with_document chatOpenAI retriever request).sources.map
          SourceEntry.page_content
      = (history_aware_retriever (chatOpenAI request.model_name 0) retriever
          (formatted_chat_history request.chat_history)
          request.question).map Document.page_content := by
  constructor
  · simp [chat_with_document, rag_chain]
  · simp [chat_with_document, rag_chain]

/-- C3 counterexample: a history turn whose sender is the string
`"assistant"` is NOT passed to the model as an assistant/AI message — the
formatting loop only recognizes `"user"` and `"ai"` and drops it. -/
theorem assistant_sender_dropped_cex :
    formatted_chat_history [{ sender := "assistant", text := "30 days." }] = []
    ∧ formatted_chat_history [{ sender := "assistant", text := "30 days." }]
      ≠ [LCMessage.ai "30 days."] := by
  constructor
  · decide
  · decide

/-- C3 amended: the formatting loop turns a turn with sender `"user"` into a
human message and a turn with sender `"ai"` into an AI message, preserving the
order of the history, and drops a turn with any other sender (including
`"assistant"`). -/
theorem formatted_chat_history_characterization :
    (∀ t h, formatted_chat_history ({ sender := "user", text := t } :: h)
      = LCMessage.human t :: formatted_chat_history h)
    ∧ (∀ t h, formatted_chat_history ({ sender := "ai", text := t } :: h)
      = LCMessage.ai t :: formatted_chat_history h)
    ∧ (∀ s t h, s ≠ "user" → s ≠ "ai" →
        formatted_chat_history ({ sender := s, text := t } :: h)
          = formatted_chat_history h) := by
  refine ⟨fun t h => ?_, fun t h => ?_, fun s t h hu ha => ?_⟩
  · simp [formatted_chat_history]
  · simp [formatted_chat_history]
  · simp [formatted_chat_history, hu, ha]

/-- Witness for C3's amended theorem at concrete inputs. -/
theorem formatted_chat_history_characterization_witness :
    formatted_chat_history
        [{ sender := "assistant", text := "30 days." }]
      = formatted_chat_history [] :=
  formatted_chat_history_characterization.2.2 "assistant" "30 days." []
    (by decide) (by decide)

/-- C5: for a request with empty chat history, the standalone question the
pipeline retrieves with is exactly the original question — independent of the
language model, i.e. no model call is made for reformulation — and the
response's sources mirror the retriever's output on exactly the original
question text. -/
theorem empty_history_passthrough (chatOpenAI : String → Nat → LLM)
    (retriever : Retriever) (request : QueryRequest)
    (hemp : request.chat_history = []) :
    (∀ llm : LLM, standalone_question llm
        (formatted_chat_history request.chat_history) request.question
      = request.question)
    ∧ (∀ llm : LLM, history_aware_retriever llm retriever
        (formatted_chat_history request.chat_history) request.question
      = retriever request.question)
    ∧ (chat_with_document chatOpenAI retriever request).sources
      = (retriever request.question).map (fun doc =>
          { source := (doc.metadata.lookup "source").getD "Unknown"
            page_content := doc.page_content }) := by
  refine ⟨fun llm => ?_, fun llm => ?_, ?_⟩
  · simp [standalone_question, hemp, formatted_chat_history]
  · simp [history_aware_retriever, hemp, formatted_chat_history]
  · simp [chat_with_document, rag_chain, history_aware_retriever, hemp,
      formatted_chat_history]

/-- Witness for C5 at a concrete request with empty history and a concrete
one-document retriever. -/
theorem empty_history_passthrough_witness :
    (∀ llm : LLM, standalone_question llm (formatted_chat_history []) "X"
      = "X")
    ∧ (∀ llm : LLM, history_aware_retriever llm
        (fun q => [{ page_content := q, metadata := [] }])
        (formatted_chat_history []) "X"
      = [{ page_content := "X", metadata := [] }])
    ∧ (chat_with_document (fun _ _ _ => "some answer")
        (fun q => [{ page_content := q, metadata := [] }])
        { question := "X" }).sources
      = ((fun q => [({ page_content := q, metadata := [] } : Document)])
          "X").map (fun doc =>
          { source := (doc.metadata.lookup "source").getD "Unknown"
            page_content := doc.page_content }) :=
  empty_history_passthrough (fun _ _ _ => "some answer")
    (fun q => [{ page_content := q, metadata := [] }]) { question := "X" } rfl

/-- C6: a vector-index query over an empty corpus returns the empty sequence
(never an error: the model is total), the k = 5 retriever over an empty corpus
returns the empty sequence, and a chat request against the empty-corpus
retriever succeeds with `sources` equal to the empty sequence. -/
theorem empty_corpus_retrieval_empty (sim : String → EmbeddingRecord → ℚ)
    (q : String) (k : Nat) (chatOpenAI : String → Nat → LLM)
    (request : QueryRequest) :
    vector_index_query sim [] q k = []
    ∧ as_retriever sim [] q = []
    ∧ (chat_with_document chatOpenAI (as_retriever sim []) request).sources
      = [] := by
  refine ⟨?_, ?_, ?_⟩
  · simp [vector_index_query, sort_by_score]
  · simp [as_retriever, vector_index_query, sort_by_score]
  · simp [chat_with_document, rag_chain, history_aware_retriever_eq,
      as_retriever, vector_index_query, sort_by_score]

/-- C7 counterexample: on an empty corpus, the list endpoint does NOT fail —
it returns the empty list — and the chat endpoint does NOT fail — it returns
a response whose sources are empty; so it is false that each of chat,
visualize, and list fails with a not-found error on an empty corpus. -/
theorem empty_corpus_list_ok_cex :
    list_documents [] = Except.ok []
    ∧ (chat_with_document (fun _ _ _ => "I don't know") (fun _ => [])
        { question := "What is X?" }).sources = [] := by
  constructor
  · rfl
  · rfl

/-- C7 amended: on an empty corpus, the visualize endpoint fails with a 404
not-found error, while the list endpoint succeeds with the empty list and a
chat request succeeds with empty sources. -/
theorem empty_corpus_behavior (tsne_fit : List (List ℚ) → List (ℚ × ℚ))
    (chatOpenAI : String → Nat → LLM) (request : QueryRequest) :
    visualize_documents tsne_fit []
      = Except.error
          { status_code := 404, detail := "No documents found to visualize." }
    ∧ list_documents [] = Except.ok []
    ∧ (chat_with_document chatOpenAI (fun _ => []) request).sources = [] := by
  refine ⟨?_, ?_, ?_⟩
  · rfl
  · rfl
  · simp [chat_with_document, rag_chain, history_aware_retriever_eq]

/-- C4, evaluated at the failing input: uploading a file named `notes.xyz`
(unsupported extension), with the staging copy and all collaborators
succeeding, does NOT reach the caller as a client-error status — the 400
`HTTPException` raised by the dispatch is caught by the endpoint's blanket
`except Exception` and re-raised as a 500 whose detail merely interpolates
the original error.  The caller therefore cannot distinguish it by status
from an upstream-service error. -/
theorem unsupported_extension_returns_500
    (load : String → Except String (List Document))
    (split : List Document → List Document) :
    (upload_document
        { load := load, split_documents := split
          copy_ok := true, add_ok := true }
        "notes.xyz" { staged := false, corpus := [] }).1
      = Except.error
          { status_code := 500
            detail := "An error occurred: 400: Unsupported file type: .xyz" } := by
  have hext : str_lower (splitext_ext "notes.xyz") = ".xyz" := by decide
  simp only [upload_document, upload_try, hext]
  rw [if_neg (by decide)]
  rfl

/-- C8: for every upload request — whatever the filename, the prior state, and
whether the staging copy, extraction, splitting, or embedding succeed or fail —
after the endpoint returns, the staged copy of the uploaded file no longer
exists on disk; on success the stored chunks are all that was added. -/
theorem upload_staged_file_removed (w : UploadWorld) (filename : String)
    (st : AppState) :
    (upload_document w filename st).2.staged = false := by
  unfold upload_document
  rcases h : upload_try w filename st with ⟨r, st2⟩
  cases r <;> simp [remove_if_exists]

/-- C9: a retrieved context document whose metadata has no `source` key is
still returned among the response's sources, with the `source` field set to
`"Unknown"` and its page content intact; the request does not fail. -/
theorem missing_source_unknown (chatOpenAI : String → Nat → LLM)
    (request : QueryRequest) (doc : Document)
    (h : doc.metadata.lookup "source" = none) :
    (chat_with_document chatOpenAI (fun _ => [doc]) request).sources
      = [{ source := "Unknown", page_content := doc.page_content }] := by
  simp [chat_with_document, rag_chain, history_aware_retriever_eq, h]

/-- Witness for C9 at a concrete request and a document with empty metadata. -/
theorem missing_source_unknown_witness :
    (chat_with_document (fun _ _ _ => "some answer")
        (fun _ => [{ page_content := "chunk text", metadata := [] }])
        { question := "q" }).sources
      = [{ source := "Unknown", page_content := "chunk text" }] :=
  missing_source_unknown (fun _ _ _ => "some answer") { question := "q" }
    { page_content := "chunk text", metadata := [] } rfl

/-- The formatting loop distributes over appended histories. -/
theorem formatted_chat_history_append (h1 h2 : List ChatHistoryItem) :
    formatted_chat_history (h1 ++ h2)
      = formatted_chat_history h1 ++ formatted_chat_history h2 := by
  induction h1 with
  | nil => simp [formatted_chat_history]
  | cons a t ih => simp [formatted_chat_history, ih]

/-- C10: a history item whose sender is neither `"user"` nor `"ai"` is
silently dropped: the chat response is identical to the response for the same
request with that item absent (and in particular no error is raised). -/
theorem invalid_sender_ignored (chatOpenAI : String → Nat → LLM)
    (retriever : Retriever) (question model_name : String)
    (h1 h2 : List ChatHistoryItem) (item : ChatHistoryItem)
    (hu : item.sender ≠ "user") (ha : item.sender ≠ "ai") :
    chat_with_document chatOpenAI retriever
        { question := question, model_name := model_name
          chat_history := h1 ++ item :: h2 }
      = chat_with_document chatOpenAI retriever
          { question := question, model_name := model_name
            chat_history := h1 ++ h2 } := by
  have hdrop : formatted_chat_history (h1 ++ item :: h2)
      = formatted_chat_history (h1 ++ h2) := by
    rcases item with ⟨s, t⟩
    rw [formatted_chat_history_append, formatted_chat_history_append]
    simp only [formatted_chat_history, hu, ha, if_neg]
    simp [hu, ha]
  simp [chat_with_document, hdrop]

/-- Witness for C10: a request with an extra `"assistant"`-sender turn gets
the same response as without it. -/
theorem invalid_sender_ignored_witness :
    chat_with_document (fun _ _ _ => "some answer") (fun _ => [])
        { question := "q", model_name := "m"
          chat_history := [{ sender := "user", text := "a" },
            { sender := "assistant", text := "b" }] }
      = chat_with_document (fun _ _ _ => "some answer") (fun _ => [])
          { question := "q", model_name := "m"
            chat_history := [{ sender := "user", text := "a" }] } :=
  invalid_sender_ignored (fun _ _ _ => "some answer") (fun _ => []) "q" "m"
    [{ sender := "user", text := "a" }] []
    { sender := "assistant", text := "b" } (by decide) (by decide)

end RagApp
